import Mathlib

/-!
Shallow embedding of the pan/zoom/pinch gesture engine of
`src/components/PanZoomImage.tsx`.

JavaScript numbers are modelled as real numbers; `Math.hypot` is the
Euclidean norm (`Real.sqrt`).  The component's React state (`transform`,
`isInteracting`) together with the mutable `gesture` ref form one record,
`ComponentState`; every event handler is a function from the state (plus
the event payload) to the next state paired with the observable effects of
the handler: whether `e.preventDefault()` was called and whether the
`onInteractionStart` / `onInteractionEnd` callbacks were invoked.

The JS `Map` used for `gesture.pointers` is insertion ordered: `set` on an
existing key updates the entry in place, `set` on a fresh key appends, and
`Array.from(map.values())` lists the values in that order.  It is modelled
as an association list with exactly those operations.
-/

namespace PanZoom

/-- A pointer position, as stored in the `pointers` map: `{ x, y }`. -/
structure Point where
  x : ℝ
  y : ℝ

noncomputable instance : DecidableEq Point := fun _ _ => Classical.dec _

/-- The React `transform` state: `{ scale, x, y }`. -/
structure Transform where
  scale : ℝ
  x : ℝ
  y : ℝ

/-- The mutable `gesture` ref of the component (`GestureState` in the source). -/
structure GestureState where
  startX : ℝ
  startY : ℝ
  startDistance : ℝ
  startScale : ℝ
  initialX : ℝ
  initialY : ℝ
  pointers : List (Nat × Point)

/-- The whole per-surface state: React state plus the gesture ref. -/
structure ComponentState where
  transform : Transform
  isInteracting : Bool
  gesture : GestureState

/-- Observable effects of one handler invocation. -/
structure Effects where
  preventedDefault : Bool
  emitStart : Bool
  emitEnd : Bool

/-- A handler invocation with no observable effect. -/
def noEffects : Effects := ⟨false, false, false⟩

/-- `Map.prototype.set`: update in place if the key is present, else append. -/
def mapSet : List (Nat × Point) → Nat → Point → List (Nat × Point)
  | [], k, v => [(k, v)]
  | (k', v') :: rest, k, v =>
      if k' = k then (k, v) :: rest else (k', v') :: mapSet rest k v

/-- `Map.prototype.has`. -/
def mapHas : List (Nat × Point) → Nat → Bool
  | [], _ => false
  | (k', _) :: rest, k => if k' = k then true else mapHas rest k

/-- `Map.prototype.delete` (idempotent removal). -/
def mapDelete : List (Nat × Point) → Nat → List (Nat × Point)
  | [], _ => []
  | (k', v') :: rest, k =>
      if k' = k then mapDelete rest k else (k', v') :: mapDelete rest k

/-- `Array.from(map.values())`: the stored positions in insertion order. -/
def values (m : List (Nat × Point)) : List Point := m.map Prod.snd

/-- `getDistance`: `Math.hypot(p2.x - p1.x, p2.y - p1.y)`. -/
noncomputable def getDistance (p1 p2 : Point) : ℝ :=
  Real.sqrt ((p2.x - p1.x) ^ 2 + (p2.y - p1.y) ^ 2)

/-- `updateTransform(scale, x, y)`: clamps the scale into `[1, 5]`
(`Math.max(minScale, Math.min(scale, maxScale))`) and stores the new
transform; `x` and `y` are stored unchanged. -/
def updateTransform (s : ComponentState) (scale x y : ℝ) : ComponentState :=
  { s with transform := { scale := max 1 (min scale 5), x := x, y := y } }

/-- `handlePointerDown`. -/
noncomputable def handlePointerDown (s : ComponentState) (id : Nat) (x y : ℝ) :
    ComponentState × Effects :=
  if s.transform.scale = 1 ∧ s.gesture.pointers = [] then
    -- passive tracking branch: just record the pointer, no capture
    ({ s with gesture :=
        { s.gesture with pointers := mapSet s.gesture.pointers id ⟨x, y⟩ } },
     noEffects)
  else
    let g : GestureState :=
      { s.gesture with pointers := mapSet s.gesture.pointers id ⟨x, y⟩ }
    let eff : Effects := { preventedDefault := true, emitStart := true, emitEnd := false }
    match values g.pointers with
    | [p] =>
        ({ s with isInteracting := true,
                  gesture := { g with startX := p.x, startY := p.y,
                                      initialX := s.transform.x,
                                      initialY := s.transform.y } }, eff)
    | [p1, p2] =>
        ({ s with isInteracting := true,
                  gesture := { g with startDistance := getDistance p1 p2,
                                      startScale := s.transform.scale } }, eff)
    | _ => ({ s with isInteracting := true, gesture := g }, eff)

/-- `handlePointerMove`. -/
noncomputable def handlePointerMove (s : ComponentState) (id : Nat) (x y : ℝ) :
    ComponentState × Effects :=
  if mapHas s.gesture.pointers id = false then (s, noEffects)
  else if s.isInteracting = false ∧ s.transform.scale = 1 then
    ({ s with gesture :=
        { s.gesture with pointers := mapSet s.gesture.pointers id ⟨x, y⟩ } },
     noEffects)
  else
    let g : GestureState :=
      { s.gesture with pointers := mapSet s.gesture.pointers id ⟨x, y⟩ }
    let s1 : ComponentState := { s with gesture := g }
    let eff : Effects := { preventedDefault := true, emitStart := false, emitEnd := false }
    match values g.pointers with
    | [p1, p2] =>
        if s.gesture.startDistance > 0 then
          (updateTransform s1
             (s.gesture.startScale * (getDistance p1 p2 / s.gesture.startDistance))
             s.transform.x s.transform.y, eff)
        else (s1, eff)
    | [p] =>
        if s.transform.scale > 1 then
          (updateTransform s1 s.transform.scale
             (s.gesture.initialX + (p.x - s.gesture.startX))
             (s.gesture.initialY + (p.y - s.gesture.startY)), eff)
        else (s1, eff)
    | _ => (s1, eff)

/-- `handlePointerUp` (also bound to pointer-cancel and pointer-leave). -/
noncomputable def handlePointerUp (elastic : Bool) (s : ComponentState) (id : Nat) :
    ComponentState × Effects :=
  let g : GestureState :=
    { s.gesture with pointers := mapDelete s.gesture.pointers id }
  if g.pointers = [] then
    if s.isInteracting then
      let eff : Effects := { preventedDefault := false, emitStart := false, emitEnd := true }
      if elastic then
        ({ transform := { scale := 1, x := 0, y := 0 }, isInteracting := false,
           gesture := g }, eff)
      else if s.transform.scale ≤ 1 then
        ({ transform := { scale := 1, x := 0, y := 0 }, isInteracting := false,
           gesture := g }, eff)
      else
        ({ s with isInteracting := false, gesture := g }, eff)
    else ({ s with gesture := g }, noEffects)
  else
    match values g.pointers with
    | [p] =>
        ({ s with gesture := { g with startX := p.x, startY := p.y,
                                      initialX := s.transform.x,
                                      initialY := s.transform.y } }, noEffects)
    | _ => ({ s with gesture := g }, noEffects)

/-- `handleDoubleTap` (bound to double-click / double-activation). -/
noncomputable def handleDoubleTap (s : ComponentState) : ComponentState × Effects :=
  if s.transform.scale > 1 then
    ({ s with transform := { scale := 1, x := 0, y := 0 }, isInteracting := false },
     { preventedDefault := false, emitStart := false, emitEnd := true })
  else
    ({ s with transform := { scale := 2.5, x := 0, y := 0 }, isInteracting := true },
     { preventedDefault := false, emitStart := true, emitEnd := false })

/-- `touchActionStyle`: the native scroll-permission hint derived from the scale. -/
noncomputable def touchActionStyle (s : ComponentState) : String :=
  if s.transform.scale > 1 then "none" else "pan-x pan-y"

/-- Events delivered to the component (pointer-cancel and pointer-leave are
separate constructors although the source binds all three to the same
handler, so claims about each can be stated directly). -/
inductive PEvent where
  | down (id : Nat) (x y : ℝ)
  | move (id : Nat) (x y : ℝ)
  | up (id : Nat)
  | cancel (id : Nat)
  | leave (id : Nat)
  | doubleTap

/-- One step of the component: dispatch an event to its handler. -/
noncomputable def step (elastic : Bool) (s : ComponentState) : PEvent → ComponentState × Effects
  | .down id x y => handlePointerDown s id x y
  | .move id x y => handlePointerMove s id x y
  | .up id => handlePointerUp elastic s id
  | .cancel id => handlePointerUp elastic s id
  | .leave id => handlePointerUp elastic s id
  | .doubleTap => handleDoubleTap s

/-- The component's initial state (`useState` / `useRef` initialisers). -/
def initState : ComponentState :=
  { transform := { scale := 1, x := 0, y := 0 },
    isInteracting := false,
    gesture := { startX := 0, startY := 0, startDistance := 0, startScale := 1,
                 initialX := 0, initialY := 0, pointers := [] } }

/-- The resting transform `{scale:1, translateX:0, translateY:0}`. -/
def restingTransform : Transform := { scale := 1, x := 0, y := 0 }

/-- Run a list of events from the initial state. -/
noncomputable def run (elastic : Bool) (es : List PEvent) : ComponentState :=
  es.foldl (fun s e => (step elastic s e).1) initState

/-- States reachable from the initial state by processing events. -/
inductive Reachable (elastic : Bool) : ComponentState → Prop where
  | init : Reachable elastic initState
  | next : ∀ s e, Reachable elastic s → Reachable elastic (step elastic s e).1

/-! ### Scale bounds -/

/-- The scale invariant `1 ≤ scale ≤ 5`. -/
def ScaleOK (s : ComponentState) : Prop :=
  1 ≤ s.transform.scale ∧ s.transform.scale ≤ 5

lemma scaleOK_updateTransform (s : ComponentState) (sc x y : ℝ) :
    ScaleOK (updateTransform s sc x y) :=
  ⟨le_max_left 1 _, max_le (by norm_num) (min_le_right _ _)⟩

lemma scaleOK_initState : ScaleOK initState := by
  constructor <;> norm_num [initState, ScaleOK]

lemma scaleOK_resting (b : Bool) (g : GestureState) :
    ScaleOK ⟨⟨1, 0, 0⟩, b, g⟩ :=
  ⟨le_refl 1, by norm_num⟩

lemma scaleOK_handlePointerDown {s : ComponentState} (h : ScaleOK s) (id : Nat) (x y : ℝ) :
    ScaleOK (handlePointerDown s id x y).1 := by
  simp only [handlePointerDown]
  split
  · exact h
  · split <;> exact h

lemma scaleOK_handlePointerMove {s : ComponentState} (h : ScaleOK s) (id : Nat) (x y : ℝ) :
    ScaleOK (handlePointerMove s id x y).1 := by
  simp only [handlePointerMove]
  split
  · exact h
  · split
    · exact h
    · split
      · split
        · exact scaleOK_updateTransform _ _ _ _
        · exact h
      · split
        · exact scaleOK_updateTransform _ _ _ _
        · exact h
      · exact h

lemma scaleOK_handlePointerUp {s : ComponentState} (h : ScaleOK s)
    (elastic : Bool) (id : Nat) :
    ScaleOK (handlePointerUp elastic s id).1 := by
  simp only [handlePointerUp]
  split
  · split
    · split
      · exact scaleOK_resting _ _
      · split
        · exact scaleOK_resting _ _
        · exact h
    · exact h
  · split <;> exact h

lemma scaleOK_handleDoubleTap {s : ComponentState} :
    ScaleOK (handleDoubleTap s).1 := by
  simp only [handleDoubleTap]
  split
  · exact scaleOK_resting _ _
  · exact ⟨by norm_num, by norm_num⟩

lemma scaleOK_step {elastic : Bool} {s : ComponentState} (h : ScaleOK s) (e : PEvent) :
    ScaleOK (step elastic s e).1 := by
  cases e with
  | down id x y => exact scaleOK_handlePointerDown h id x y
  | move id x y => exact scaleOK_handlePointerMove h id x y
  | up id => exact scaleOK_handlePointerUp h elastic id
  | cancel id => exact scaleOK_handlePointerUp h elastic id
  | leave id => exact scaleOK_handlePointerUp h elastic id
  | doubleTap => exact scaleOK_handleDoubleTap

lemma scaleOK_reachable {elastic : Bool} {s : ComponentState}
    (h : Reachable elastic s) : ScaleOK s := by
  induction h with
  | init => exact scaleOK_initState
  | next s e _ ih => exact scaleOK_step ih e

/-! ### Map helper lemmas -/

lemma mapSet_ne_nil (m : List (Nat × Point)) (k : Nat) (v : Point) :
    mapSet m k v ≠ [] := by
  cases m with
  | nil => simp [mapSet]
  | cons hd tl =>
      simp only [mapSet]
      split <;> simp

lemma mapHas_ne_nil {m : List (Nat × Point)} {k : Nat} (h : mapHas m k = true) :
    m ≠ [] := by
  cases m with
  | nil => simp [mapHas] at h
  | cons hd tl => simp

lemma mapDelete_nil (k : Nat) : mapDelete [] k = [] := rfl

/-! ### The resting-state invariant

Outside of an active interaction, the transform is either the resting
transform, or (in non-elastic mode only) a persisted zoom with no pointer
down.  This is the key invariant behind C2. -/

/-- When `isInteracting` is false, the transform is the resting transform,
except that in non-elastic mode a zoomed-in transform may persist after all
pointers were released. -/
def RestInv (elastic : Bool) (s : ComponentState) : Prop :=
  s.isInteracting = false →
    s.transform = restingTransform ∨
      (elastic = false ∧ 1 < s.transform.scale ∧ s.gesture.pointers = [])

lemma restInv_initState (elastic : Bool) : RestInv elastic initState :=
  fun _ => Or.inl rfl

lemma restInv_handlePointerDown {elastic : Bool} {s : ComponentState}
    (h : RestInv elastic s) (id : Nat) (x y : ℝ) :
    RestInv elastic (handlePointerDown s id x y).1 := by
  simp only [handlePointerDown]
  split
  · rename_i hg
    intro hni
    cases h hni with
    | inl hrest => exact Or.inl hrest
    | inr hr => exact absurd hg.1 hr.2.1.ne'
  · split <;> (intro hni; simp at hni)

lemma restInv_handlePointerMove {elastic : Bool} {s : ComponentState}
    (h : RestInv elastic s) (id : Nat) (x y : ℝ) :
    RestInv elastic (handlePointerMove s id x y).1 := by
  simp only [handlePointerMove]
  split
  · exact h
  · rename_i hhas
    have hhas2 : mapHas s.gesture.pointers id = true := by
      revert hhas
      cases mapHas s.gesture.pointers id <;> simp
    split
    · intro hni
      cases h hni with
      | inl hrest => exact Or.inl hrest
      | inr hr => exact absurd hr.2.2 (mapHas_ne_nil hhas2)
    · rename_i hpass
      split <;> (try split) <;>
        (intro hni
         cases h hni with
         | inl hrest =>
             exact absurd (congrArg Transform.scale hrest)
               (fun hs1 => hpass ⟨hni, hs1⟩)
         | inr hr => exact absurd hr.2.2 (mapHas_ne_nil hhas2))

lemma restInv_handlePointerUp {elastic : Bool} {s : ComponentState}
    (h : RestInv elastic s) (id : Nat) :
    RestInv elastic (handlePointerUp elastic s id).1 := by
  simp only [handlePointerUp]
  split
  · rename_i hemp
    split
    · split
      · intro _
        exact Or.inl rfl
      · split
        · intro _
          exact Or.inl rfl
        · rename_i hel hsc
          intro _
          refine Or.inr ⟨?_, not_le.mp hsc, hemp⟩
          revert hel
          cases elastic <;> simp
    · intro hni
      cases h hni with
      | inl hrest => exact Or.inl hrest
      | inr hr => exact Or.inr ⟨hr.1, hr.2.1, hemp⟩
  · rename_i hne
    split <;>
      (intro hni
       cases h hni with
       | inl hrest => exact Or.inl hrest
       | inr hr =>
           exact absurd (by simp [hr.2.2, mapDelete] :
             mapDelete s.gesture.pointers id = []) hne)

lemma restInv_handleDoubleTap {elastic : Bool} {s : ComponentState} :
    RestInv elastic (handleDoubleTap s).1 := by
  simp only [handleDoubleTap]
  split
  · intro _
    exact Or.inl rfl
  · intro hni
    simp at hni

lemma restInv_step {elastic : Bool} {s : ComponentState}
    (h : RestInv elastic s) (e : PEvent) :
    RestInv elastic (step elastic s e).1 := by
  cases e with
  | down id x y => exact restInv_handlePointerDown h id x y
  | move id x y => exact restInv_handlePointerMove h id x y
  | up id => exact restInv_handlePointerUp h id
  | cancel id => exact restInv_handlePointerUp h id
  | leave id => exact restInv_handlePointerUp h id
  | doubleTap => exact restInv_handleDoubleTap

lemma restInv_reachable {elastic : Bool} {s : ComponentState}
    (h : Reachable elastic s) : RestInv elastic s := by
  induction h with
  | init => exact restInv_initState elastic
  | next s e _ ih => exact restInv_step ih e

end PanZoom

namespace PanZoom

/-- **C1.** For every sequence of pointer-down/move/up/cancel/leave and
double-activation events processed by the gesture engine, the transform's
scale satisfies `1 ≤ scale ≤ 5` after every processed event — i.e. in
every reachable state. -/
theorem C1_scale_always_in_bounds (elastic : Bool) (s : ComponentState)
    (h : Reachable elastic s) :
    1 ≤ s.transform.scale ∧ s.transform.scale ≤ 5 :=
  scaleOK_reachable h

/-- Witness for C1 at a concrete reachable state: the state after a
double-activation from the initial state. -/
theorem C1_scale_always_in_bounds_witness :
    1 ≤ (step false initState .doubleTap).1.transform.scale ∧
      (step false initState .doubleTap).1.transform.scale ≤ 5 :=
  C1_scale_always_in_bounds false _ (Reachable.next initState .doubleTap Reachable.init)

/-- **C2.** When the last tracked pointer is released (pointer-up/cancel/leave
bringing the active-pointer set to cardinality 0): with `elastic = true` the
transform always becomes the resting state `{scale:1, translateX:0,
translateY:0}` regardless of the prior gesture; with `elastic = false` the
transform becomes the resting state when `scale ≤ 1`, and otherwise the last
computed scale and translation are preserved unchanged.  (Pointer-cancel and
pointer-leave are bound to the same `handlePointerUp` handler.) -/
theorem C2_release_last_pointer (elastic : Bool) (s : ComponentState)
    (h : Reachable elastic s) (id : Nat)
    (hemp : mapDelete s.gesture.pointers id = []) :
    (elastic = true →
      (handlePointerUp elastic s id).1.transform = restingTransform) ∧
    (elastic = false →
      (s.transform.scale ≤ 1 →
        (handlePointerUp elastic s id).1.transform = restingTransform) ∧
      (1 < s.transform.scale →
        (handlePointerUp elastic s id).1.transform = s.transform)) := by
  have hr := restInv_reachable h
  constructor
  · intro hel
    subst hel
    cases hb : s.isInteracting with
    | true => simp [handlePointerUp, hemp, hb, restingTransform]
    | false =>
        have hi := hr hb
        simp only [handlePointerUp, hemp, hb]
        simp only [Bool.false_eq_true, if_false, if_pos]
        cases hi with
        | inl hrest => exact hrest
        | inr hc => exact absurd hc.1 (by simp)
  · intro hel
    subst hel
    constructor
    · intro hle
      cases hb : s.isInteracting with
      | true => simp [handlePointerUp, hemp, hb, hle, restingTransform]
      | false =>
          have hi := hr hb
          simp only [handlePointerUp, hemp, hb]
          simp only [Bool.false_eq_true, if_false, if_pos]
          cases hi with
          | inl hrest => exact hrest
          | inr hc => exact absurd hle (not_le.mpr hc.2.1)
    · intro hgt
      cases hb : s.isInteracting with
      | true => simp [handlePointerUp, hemp, hb, not_le.mpr hgt]
      | false => simp [handlePointerUp, hemp, hb]

/-- Witness for C2: from the initial state (reachable, empty pointer table), a
pointer-up in elastic mode leaves the resting transform. -/
theorem C2_release_last_pointer_witness :
    mapDelete initState.gesture.pointers 0 = [] ∧
      (handlePointerUp true initState 0).1.transform = restingTransform :=
  ⟨rfl, (C2_release_last_pointer true initState Reachable.init 0 rfl).1 rfl⟩

/-- Evaluation helper: the Euclidean distance, given a nonnegative root. -/
lemma getDistance_eval (p1 p2 : Point) (d : ℝ) (h0 : 0 ≤ d)
    (h : (p2.x - p1.x) ^ 2 + (p2.y - p1.y) ^ 2 = d ^ 2) :
    getDistance p1 p2 = d := by
  rw [getDistance, h, Real.sqrt_sq h0]

/-- **C3.** On a pointer-move while engaged with exactly two active pointers
(and a positive anchor distance, see C10 for the degenerate case), the new
scale is `clamp(startScale * (currentDistance / startDistance), 1, 5)` —
`max 1 (min · 5)` — and the translation components are left unchanged. -/
theorem C3_pinch_scale_formula (s : ComponentState) (id : Nat) (x y : ℝ)
    (p1 p2 : Point)
    (htr : mapHas s.gesture.pointers id = true)
    (heng : ¬(s.isInteracting = false ∧ s.transform.scale = 1))
    (hp : values (mapSet s.gesture.pointers id ⟨x, y⟩) = [p1, p2])
    (hd : 0 < s.gesture.startDistance) :
    (handlePointerMove s id x y).1.transform =
      { scale := max 1 (min (s.gesture.startScale *
          (getDistance p1 p2 / s.gesture.startDistance)) 5),
        x := s.transform.x, y := s.transform.y } := by
  simp [handlePointerMove, htr, heng, hp, hd, updateTransform]

/-- A concrete two-pointer state: engaged pinch, anchor distance 40 at
anchor scale 1, pointers at `(100,100)` and `(140,100)`. -/
def pinchState : ComponentState :=
  { transform := { scale := 1, x := 0, y := 0 },
    isInteracting := true,
    gesture := { startX := 0, startY := 0, startDistance := 40, startScale := 1,
                 initialX := 0, initialY := 0,
                 pointers := [(0, ⟨100, 100⟩), (1, ⟨140, 100⟩)] } }

/-- Witness for C3, also checking the spec's doubling example: moving the
second pointer from `(140,100)` to `(180,100)` doubles the inter-pointer
distance from 40 to 80 and yields scale 2 exactly. -/
theorem C3_pinch_scale_formula_witness :
    mapHas pinchState.gesture.pointers 1 = true ∧
    ¬(pinchState.isInteracting = false ∧ pinchState.transform.scale = 1) ∧
    values (mapSet pinchState.gesture.pointers 1 ⟨180, 100⟩) =
      [⟨100, 100⟩, ⟨180, 100⟩] ∧
    0 < pinchState.gesture.startDistance ∧
    (handlePointerMove pinchState 1 180 100).1.transform = ⟨2, 0, 0⟩ := by
  have htr : mapHas pinchState.gesture.pointers 1 = true := by
    simp [pinchState, mapHas]
  have heng : ¬(pinchState.isInteracting = false ∧ pinchState.transform.scale = 1) := by
    simp [pinchState]
  have hp : values (mapSet pinchState.gesture.pointers 1 ⟨180, 100⟩) =
      [⟨100, 100⟩, ⟨180, 100⟩] := by
    simp [pinchState, mapSet, values]
  have hd : (0 : ℝ) < pinchState.gesture.startDistance := by
    norm_num [pinchState]
  refine ⟨htr, heng, hp, hd, ?_⟩
  rw [C3_pinch_scale_formula pinchState 1 180 100 ⟨100, 100⟩ ⟨180, 100⟩ htr heng hp hd]
  rw [getDistance_eval ⟨100, 100⟩ ⟨180, 100⟩ 80 (by norm_num) (by norm_num)]
  norm_num [pinchState]

/-- **C4.** On a pointer-move while engaged with exactly one active pointer and
`scale > 1`, the new translation is the anchor translation plus the pointer's
total movement delta since the anchor was captured, with no clamping applied
to the translation, and the scale is left unchanged. -/
theorem C4_pan_translation (s : ComponentState) (id : Nat) (x y : ℝ) (p : Point)
    (htr : mapHas s.gesture.pointers id = true)
    (hp : values (mapSet s.gesture.pointers id ⟨x, y⟩) = [p])
    (hgt : 1 < s.transform.scale) (hle : s.transform.scale ≤ 5) :
    (handlePointerMove s id x y).1.transform =
      { scale := s.transform.scale,
        x := s.gesture.initialX + (p.x - s.gesture.startX),
        y := s.gesture.initialY + (p.y - s.gesture.startY) } := by
  have heng : ¬(s.isInteracting = false ∧ s.transform.scale = 1) :=
    fun hc => absurd hc.2 hgt.ne'
  simp [handlePointerMove, htr, heng, hp, hgt, updateTransform,
    min_eq_left hle, max_eq_right hgt.le]

/-- A concrete one-pointer state: engaged pan at scale 2, anchor position
`(100,100)`, anchor translation `(0,0)`. -/
def panState : ComponentState :=
  { transform := { scale := 2, x := 0, y := 0 },
    isInteracting := true,
    gesture := { startX := 100, startY := 100, startDistance := 0, startScale := 1,
                 initialX := 0, initialY := 0,
                 pointers := [(0, ⟨100, 100⟩)] } }

/-- Witness for C4, also checking the spec's example: a single-pointer pan at
`scale == 2` moving by `(+30,+10)` translates the transform by exactly that
delta. -/
theorem C4_pan_translation_witness :
    mapHas panState.gesture.pointers 0 = true ∧
    values (mapSet panState.gesture.pointers 0 ⟨130, 110⟩) = [⟨130, 110⟩] ∧
    1 < panState.transform.scale ∧ panState.transform.scale ≤ 5 ∧
    (handlePointerMove panState 0 130 110).1.transform = ⟨2, 30, 10⟩ := by
  have htr : mapHas panState.gesture.pointers 0 = true := by
    simp [panState, mapHas]
  have hp : values (mapSet panState.gesture.pointers 0 ⟨130, 110⟩) = [⟨130, 110⟩] := by
    simp [panState, mapSet, values]
  have hgt : (1 : ℝ) < panState.transform.scale := by norm_num [panState]
  have hle : panState.transform.scale ≤ 5 := by norm_num [panState]
  refine ⟨htr, hp, hgt, hle, ?_⟩
  rw [C4_pan_translation panState 0 130 110 ⟨130, 110⟩ htr hp hgt hle]
  norm_num [panState]

/-- **C6.** A pointer-move observed while `scale == 1` and the gesture has not
escalated to the engaged state (`isInteracting = false`) leaves the transform
completely unchanged and does not call `preventDefault`; moreover the
`touchAction` hint in that state is `pan-x pan-y`, so ambient scrolling of the
parent container can proceed. -/
theorem C6_passive_move_no_suppression (s : ComponentState) (id : Nat) (x y : ℝ)
    (hni : s.isInteracting = false) (h1 : s.transform.scale = 1) :
    (handlePointerMove s id x y).1.transform = s.transform ∧
      (handlePointerMove s id x y).2.preventedDefault = false ∧
      touchActionStyle s = "pan-x pan-y" := by
  by_cases htr : mapHas s.gesture.pointers id = false
  · simp [handlePointerMove, htr, touchActionStyle, h1, noEffects]
  · simp [handlePointerMove, htr, hni, h1, touchActionStyle, noEffects]

/-- A concrete passive-tracking state: scale 1, one tracked pointer, not
interacting. -/
def passiveState : ComponentState :=
  { transform := { scale := 1, x := 0, y := 0 },
    isInteracting := false,
    gesture := { startX := 0, startY := 0, startDistance := 0, startScale := 1,
                 initialX := 0, initialY := 0,
                 pointers := [(0, ⟨10, 10⟩)] } }

/-- Witness for C6 at the concrete passive-tracking state. -/
theorem C6_passive_move_no_suppression_witness :
    passiveState.isInteracting = false ∧ passiveState.transform.scale = 1 ∧
    (handlePointerMove passiveState 0 50 50).1.transform = passiveState.transform ∧
    (handlePointerMove passiveState 0 50 50).2.preventedDefault = false ∧
    touchActionStyle passiveState = "pan-x pan-y" := by
  have h := C6_passive_move_no_suppression passiveState 0 50 50 rfl rfl
  exact ⟨rfl, rfl, h.1, h.2.1, h.2.2⟩

/-- **C8.** A double-activation toggles the transform deterministically: from
any zoomed state (`scale > 1`) it goes to the resting state and emits exactly
the interaction-end callback; otherwise it goes to the fixed preset
`{scale:2.5, translateX:0, translateY:0}` and emits exactly the
interaction-start callback — and in both cases the anchor state in the
`gesture` ref is untouched (the toggle bypasses the anchor-based math). -/
theorem C8_double_tap_toggle (s : ComponentState) :
    (1 < s.transform.scale →
      (handleDoubleTap s).1.transform = restingTransform ∧
      (handleDoubleTap s).2.emitEnd = true ∧
      (handleDoubleTap s).2.emitStart = false ∧
      (handleDoubleTap s).1.gesture = s.gesture) ∧
    (¬ 1 < s.transform.scale →
      (handleDoubleTap s).1.transform = ⟨2.5, 0, 0⟩ ∧
      (handleDoubleTap s).2.emitStart = true ∧
      (handleDoubleTap s).2.emitEnd = false ∧
      (handleDoubleTap s).1.gesture = s.gesture) := by
  constructor
  · intro h
    simp [handleDoubleTap, h, restingTransform]
  · intro h
    simp [handleDoubleTap, h]

/-- Witness for C8: a double-activation at the initial state (scale 1) yields
the preset `{2.5, 0, 0}` and emits interaction-start; a second
double-activation from the preset returns to resting and emits
interaction-end. -/
theorem C8_double_tap_toggle_witness :
    (¬ (1 : ℝ) < initState.transform.scale ∧
      (handleDoubleTap initState).1.transform = ⟨2.5, 0, 0⟩ ∧
      (handleDoubleTap initState).2.emitStart = true) ∧
    ((1 : ℝ) < (handleDoubleTap initState).1.transform.scale ∧
      (handleDoubleTap (handleDoubleTap initState).1).1.transform = restingTransform ∧
      (handleDoubleTap (handleDoubleTap initState).1).2.emitEnd = true) := by
  have h1 : ¬ (1 : ℝ) < initState.transform.scale := by norm_num [initState]
  have hfst := (C8_double_tap_toggle initState).2 h1
  have h2 : (1 : ℝ) < (handleDoubleTap initState).1.transform.scale := by
    rw [hfst.1]
    norm_num
  have hsnd := (C8_double_tap_toggle (handleDoubleTap initState).1).1 h2
  exact ⟨⟨h1, hfst.1, hfst.2.1⟩, ⟨h2, hsnd.1, hsnd.2.1⟩⟩

/-- **C10.** A pinch whose origin distance is zero (coincident starting
fingers) performs no division: the `startDistance > 0` guard fails, so a
pointer-move with two active pointers leaves the transform (in particular the
scale) unchanged.  All handlers are total functions — no input raises. -/
theorem C10_zero_origin_distance_no_change (s : ComponentState) (id : Nat)
    (x y : ℝ) (p1 p2 : Point)
    (htr : mapHas s.gesture.pointers id = true)
    (hp : values (mapSet s.gesture.pointers id ⟨x, y⟩) = [p1, p2])
    (hd : s.gesture.startDistance ≤ 0) :
    (handlePointerMove s id x y).1.transform = s.transform := by
  by_cases hpass : s.isInteracting = false ∧ s.transform.scale = 1
  · simp [handlePointerMove, htr, hpass]
  · simp [handlePointerMove, htr, hpass, hp, not_lt.mpr hd]

/-- A concrete degenerate pinch: both pointers started coincident, so the
anchor distance is 0. -/
def coincidentState : ComponentState :=
  { transform := { scale := 3, x := 1, y := 2 },
    isInteracting := true,
    gesture := { startX := 0, startY := 0, startDistance := 0, startScale := 3,
                 initialX := 0, initialY := 0,
                 pointers := [(0, ⟨5, 5⟩), (1, ⟨5, 5⟩)] } }

/-- Witness for C10: with a zero anchor distance, a two-pointer move leaves
the transform unchanged. -/
theorem C10_zero_origin_distance_no_change_witness :
    mapHas coincidentState.gesture.pointers 0 = true ∧
    values (mapSet coincidentState.gesture.pointers 0 ⟨9, 9⟩) =
      [⟨9, 9⟩, ⟨5, 5⟩] ∧
    coincidentState.gesture.startDistance ≤ 0 ∧
    (handlePointerMove coincidentState 0 9 9).1.transform =
      coincidentState.transform := by
  have htr : mapHas coincidentState.gesture.pointers 0 = true := by
    simp [coincidentState, mapHas]
  have hp : values (mapSet coincidentState.gesture.pointers 0 ⟨9, 9⟩) =
      [⟨9, 9⟩, ⟨5, 5⟩] := by
    simp [coincidentState, mapSet, values]
  have hd : coincidentState.gesture.startDistance ≤ 0 := by
    norm_num [coincidentState]
  exact ⟨htr, hp, hd,
    C10_zero_origin_distance_no_change coincidentState 0 9 9 ⟨9, 9⟩ ⟨5, 5⟩ htr hp hd⟩

/-! ### Callback and preventDefault characterisation -/

lemma handlePointerDown_effects (s : ComponentState) (id : Nat) (x y : ℝ) :
    (handlePointerDown s id x y).2 =
      if s.transform.scale = 1 ∧ s.gesture.pointers = [] then noEffects
      else ⟨true, true, false⟩ := by
  simp only [handlePointerDown]
  split
  · rfl
  · split <;> rfl

lemma handlePointerMove_effects (s : ComponentState) (id : Nat) (x y : ℝ) :
    (handlePointerMove s id x y).2 =
      if mapHas s.gesture.pointers id = false then noEffects
      else if s.isInteracting = false ∧ s.transform.scale = 1 then noEffects
      else ⟨true, false, false⟩ := by
  simp only [handlePointerMove]
  split
  · rfl
  · split
    · rfl
    · split <;> (try split) <;> rfl

lemma handlePointerUp_effects (elastic : Bool) (s : ComponentState) (id : Nat) :
    (handlePointerUp elastic s id).2 =
      if mapDelete s.gesture.pointers id = [] then
        if s.isInteracting then ⟨false, false, true⟩ else noEffects
      else noEffects := by
  simp only [handlePointerUp]
  split
  · split
    · split
      · rfl
      · split <;> rfl
    · rfl
  · split <;> rfl

lemma handleDoubleTap_effects (s : ComponentState) :
    (handleDoubleTap s).2 =
      if 1 < s.transform.scale then ⟨false, false, true⟩
      else ⟨false, true, false⟩ := by
  simp only [handleDoubleTap]
  split <;> rfl

/-- **C7 counterexample.** The claim "callbacks are invoked exactly once per
transition and never while the engine is already in the corresponding state"
is false: after a double-activation from the initial state the engine is
already interacting (`isInteracting = true`), yet the next pointer-down takes
the engage path and invokes `onInteractionStart` again. -/
theorem C7_counterexample_start_reemitted_while_engaged :
    (handleDoubleTap initState).1.isInteracting = true ∧
    (handlePointerDown (handleDoubleTap initState).1 0 0 0).2.emitStart = true := by
  constructor
  · norm_num [handleDoubleTap, initState]
  · rw [handlePointerDown_effects]
    norm_num [handleDoubleTap, initState]

/-- **C7 (amended).** Characterisation of when the callbacks fire:
`onInteractionStart` is invoked on *every* pointer-down that takes the engage
path (any down while `scale ≠ 1` or while the pointer table is nonempty) and
on every double-activation from `scale ≤ 1` — regardless of whether the
engine is already interacting, so it can fire more than once per
`Idle → Engaged` transition; `onInteractionEnd` is invoked exactly when a
pointer-up/cancel/leave empties the pointer table while `isInteracting` is
true, and on every double-activation from `scale > 1` — even when the engine
is already idle. -/
theorem C7_amended_callback_characterisation (elastic : Bool)
    (s : ComponentState) (e : PEvent) :
    ((step elastic s e).2.emitStart = true ↔
      ((∃ id x y, e = .down id x y) ∧
        ¬(s.transform.scale = 1 ∧ s.gesture.pointers = [])) ∨
      (e = .doubleTap ∧ ¬ 1 < s.transform.scale)) ∧
    ((step elastic s e).2.emitEnd = true ↔
      ((∃ id, (e = .up id ∨ e = .cancel id ∨ e = .leave id) ∧
          mapDelete s.gesture.pointers id = []) ∧ s.isInteracting = true) ∨
      (e = .doubleTap ∧ 1 < s.transform.scale)) := by
  cases e with
  | down id x y =>
      have hfx := handlePointerDown_effects s id x y
      by_cases hc : s.transform.scale = 1 ∧ s.gesture.pointers = []
      · rw [if_pos hc] at hfx
        constructor <;> simp [step, hfx, noEffects, hc]
      · rw [if_neg hc] at hfx
        constructor <;> simp [step, hfx, noEffects, hc]
  | move id x y =>
      have hfx := handlePointerMove_effects s id x y
      constructor <;>
        (rw [show (step elastic s (.move id x y)).2 = (handlePointerMove s id x y).2
            from rfl, hfx]
         split <;> (try split) <;> simp [noEffects])
  | up id =>
      have hfx := handlePointerUp_effects elastic s id
      by_cases hemp : mapDelete s.gesture.pointers id = []
      · rw [if_pos hemp] at hfx
        cases hb : s.isInteracting with
        | true =>
            rw [hb, if_pos rfl] at hfx
            constructor <;> simp [step, hfx, hemp, hb]
        | false =>
            rw [hb] at hfx
            simp only [Bool.false_eq_true, if_false] at hfx
            constructor <;> simp [step, hfx, noEffects, hemp, hb]
      · rw [if_neg hemp] at hfx
        constructor <;> simp [step, hfx, noEffects, hemp]
  | cancel id =>
      have hfx := handlePointerUp_effects elastic s id
      by_cases hemp : mapDelete s.gesture.pointers id = []
      · rw [if_pos hemp] at hfx
        cases hb : s.isInteracting with
        | true =>
            rw [hb, if_pos rfl] at hfx
            constructor <;> simp [step, hfx, hemp, hb]
        | false =>
            rw [hb] at hfx
            simp only [Bool.false_eq_true, if_false] at hfx
            constructor <;> simp [step, hfx, noEffects, hemp, hb]
      · rw [if_neg hemp] at hfx
        constructor <;> simp [step, hfx, noEffects, hemp]
  | leave id =>
      have hfx := handlePointerUp_effects elastic s id
      by_cases hemp : mapDelete s.gesture.pointers id = []
      · rw [if_pos hemp] at hfx
        cases hb : s.isInteracting with
        | true =>
            rw [hb, if_pos rfl] at hfx
            constructor <;> simp [step, hfx, hemp, hb]
        | false =>
            rw [hb] at hfx
            simp only [Bool.false_eq_true, if_false] at hfx
            constructor <;> simp [step, hfx, noEffects, hemp, hb]
      · rw [if_neg hemp] at hfx
        constructor <;> simp [step, hfx, noEffects, hemp]
  | doubleTap =>
      have hfx := handleDoubleTap_effects s
      by_cases hc : 1 < s.transform.scale
      · rw [if_pos hc] at hfx
        constructor <;> simp [step, hfx, hc]
      · rw [if_neg hc] at hfx
        constructor <;> simp [step, hfx, hc]

/-! ### The spec's scenario trace (§8)

Pointer A down at (100,100), pointer B down at (140,100) (anchor distance
40), B moves to (180,100) (distance 80, scale 2), B up (re-anchor to A),
A moves +30 in x, A up — non-elastic, so the transform persists. -/

/-- The spec's scenario event stream. -/
def scenarioEvents : List PEvent :=
  [.down 0 100 100, .down 1 140 100, .move 1 180 100, .up 1,
   .move 0 130 100, .up 0]

def sTrace1 : ComponentState :=
  ⟨⟨1, 0, 0⟩, false, ⟨0, 0, 0, 1, 0, 0, [(0, ⟨100, 100⟩)]⟩⟩

def sTrace2 : ComponentState :=
  ⟨⟨1, 0, 0⟩, true, ⟨0, 0, 40, 1, 0, 0, [(0, ⟨100, 100⟩), (1, ⟨140, 100⟩)]⟩⟩

def sTrace3 : ComponentState :=
  ⟨⟨2, 0, 0⟩, true, ⟨0, 0, 40, 1, 0, 0, [(0, ⟨100, 100⟩), (1, ⟨180, 100⟩)]⟩⟩

def sTrace4 : ComponentState :=
  ⟨⟨2, 0, 0⟩, true, ⟨100, 100, 40, 1, 0, 0, [(0, ⟨100, 100⟩)]⟩⟩

def sTrace5 : ComponentState :=
  ⟨⟨2, 30, 0⟩, true, ⟨100, 100, 40, 1, 0, 0, [(0, ⟨130, 100⟩)]⟩⟩

def sTrace6 : ComponentState :=
  ⟨⟨2, 30, 0⟩, false, ⟨100, 100, 40, 1, 0, 0, []⟩⟩

lemma scenario_step1 : (step false initState (.down 0 100 100)).1 = sTrace1 := by
  simp [step, handlePointerDown, initState, sTrace1, mapSet]

lemma scenario_step2 : (step false sTrace1 (.down 1 140 100)).1 = sTrace2 := by
  have hd : getDistance ⟨100, 100⟩ ⟨140, 100⟩ = 40 :=
    getDistance_eval _ _ 40 (by norm_num) (by norm_num)
  simp [step, handlePointerDown, sTrace1, sTrace2, mapSet, values, hd]

lemma scenario_step3 : (step false sTrace2 (.move 1 180 100)).1 = sTrace3 := by
  have hd : getDistance ⟨100, 100⟩ ⟨180, 100⟩ = 80 :=
    getDistance_eval _ _ 80 (by norm_num) (by norm_num)
  norm_num [step, handlePointerMove, sTrace2, sTrace3, mapSet, mapHas, values,
    hd, updateTransform, min_def, max_def]

lemma scenario_step4 : (step false sTrace3 (.up 1)).1 = sTrace4 := by
  simp [step, handlePointerUp, sTrace3, sTrace4, mapDelete, values]

lemma scenario_step5 : (step false sTrace4 (.move 0 130 100)).1 = sTrace5 := by
  norm_num [step, handlePointerMove, sTrace4, sTrace5, mapSet, mapHas, values,
    updateTransform, min_def, max_def]

lemma scenario_step6 : (step false sTrace5 (.up 0)).1 = sTrace6 := by
  norm_num [step, handlePointerUp, sTrace5, sTrace6, mapDelete]

lemma scenario_run : run false scenarioEvents = sTrace6 := by
  simp only [run, scenarioEvents, List.foldl_cons, List.foldl_nil]
  rw [scenario_step1, scenario_step2, scenario_step3, scenario_step4,
    scenario_step5, scenario_step6]

/-- **C5.** When a pointer-up/cancel/leave leaves exactly one tracked pointer,
the gesture anchor is rebased to the remaining pointer's current position and
the current transform (which itself does not change on that event), so
subsequent pan deltas are measured from the rebase point; and the spec's
scenario trace (pinch 40→80, lift one pointer, move the other by (+30,0),
release with `elastic = false`) ends with transform `{scale:2, translateX:30,
translateY:0}`. -/
theorem C5_reanchor_on_second_lift (elastic : Bool) (s : ComponentState)
    (id : Nat) (p : Point)
    (hp : values (mapDelete s.gesture.pointers id) = [p]) :
    ((handlePointerUp elastic s id).1.transform = s.transform ∧
     (handlePointerUp elastic s id).1.gesture.startX = p.x ∧
     (handlePointerUp elastic s id).1.gesture.startY = p.y ∧
     (handlePointerUp elastic s id).1.gesture.initialX = s.transform.x ∧
     (handlePointerUp elastic s id).1.gesture.initialY = s.transform.y) ∧
    (run false scenarioEvents).transform = ⟨2, 30, 0⟩ := by
  have hne : mapDelete s.gesture.pointers id ≠ [] := by
    intro h
    rw [h] at hp
    simp [values] at hp
  constructor
  · simp [handlePointerUp, hne, hp]
  · rw [scenario_run]
    rfl

/-- Witness for C5: lifting pointer 0 of the concrete pinch state re-anchors
to pointer 1's position `(140,100)` and the anchor translation becomes the
current transform's translation. -/
theorem C5_reanchor_on_second_lift_witness :
    values (mapDelete pinchState.gesture.pointers 0) = [⟨140, 100⟩] ∧
    (handlePointerUp false pinchState 0).1.gesture.startX = 140 ∧
    (handlePointerUp false pinchState 0).1.gesture.initialX =
      pinchState.transform.x ∧
    (run false scenarioEvents).transform = ⟨2, 30, 0⟩ := by
  have hp : values (mapDelete pinchState.gesture.pointers 0) = [⟨140, 100⟩] := by
    simp [pinchState, mapDelete, values]
  have h := C5_reanchor_on_second_lift false pinchState 0 ⟨140, 100⟩ hp
  exact ⟨hp, h.1.2.1, h.1.2.2.2.1, h.2⟩

/-! ### Three simultaneous pointers -/

def tTrace3 : ComponentState :=
  ⟨⟨1, 0, 0⟩, true,
   ⟨0, 0, 40, 1, 0, 0,
    [(0, ⟨100, 100⟩), (1, ⟨140, 100⟩), (2, ⟨200, 200⟩)]⟩⟩

def tTrace4 : ComponentState :=
  ⟨⟨1, 0, 0⟩, true,
   ⟨0, 0, 40, 1, 0, 0,
    [(0, ⟨100, 100⟩), (1, ⟨180, 100⟩), (2, ⟨200, 200⟩)]⟩⟩

lemma third_step3 : (step false sTrace2 (.down 2 200 200)).1 = tTrace3 := by
  simp [step, handlePointerDown, sTrace2, tTrace3, mapSet, values]

lemma third_step4 : (step false tTrace3 (.move 1 180 100)).1 = tTrace4 := by
  simp [step, handlePointerMove, tTrace3, tTrace4, mapSet, mapHas, values]

/-- **C9 counterexample.** With a third pointer down, moving the second
pointer from (140,100) to (180,100) leaves the scale at 1, whereas the very
same move with only the first two contacts present yields scale 2 — so
pointer-moves do *not* "continue to drive the two-finger pinch behavior
exactly as if only those two contacts existed". -/
theorem C9_counterexample_third_pointer_freezes_pinch :
    (run false [.down 0 100 100, .down 1 140 100, .down 2 200 200,
      .move 1 180 100]).transform.scale = 1 ∧
    (run false [.down 0 100 100, .down 1 140 100,
      .move 1 180 100]).transform.scale = 2 := by
  constructor
  · have h : run false [.down 0 100 100, .down 1 140 100, .down 2 200 200,
        .move 1 180 100] = tTrace4 := by
      simp only [run, List.foldl_cons, List.foldl_nil]
      rw [scenario_step1, scenario_step2, third_step3, third_step4]
    rw [h]
    rfl
  · have h : run false [.down 0 100 100, .down 1 140 100,
        .move 1 180 100] = sTrace3 := by
      simp only [run, List.foldl_cons, List.foldl_nil]
      rw [scenario_step1, scenario_step2, scenario_step3]
    rw [h]
    rfl

/-- **C9 (amended).** Third and later simultaneous contacts are tracked in the
pointer table but ignored for gesture classification in the sense that no
gesture branch handles them: a pointer-down beyond the second contact records
the pointer and leaves the whole gesture anchor untouched, and a pointer-move
while three or more pointers are active updates the moved pointer's sample
but leaves the transform unchanged — it does not drive the two-finger pinch. -/
theorem C9_amended_third_pointer_tracked_but_inert (s : ComponentState)
    (id : Nat) (x y : ℝ) :
    (mapHas s.gesture.pointers id = true →
     3 ≤ (values (mapSet s.gesture.pointers id ⟨x, y⟩)).length →
     (handlePointerMove s id x y).1.transform = s.transform ∧
     (handlePointerMove s id x y).1.gesture.pointers =
       mapSet s.gesture.pointers id ⟨x, y⟩) ∧
    (3 ≤ (values (mapSet s.gesture.pointers id ⟨x, y⟩)).length →
     ¬(s.transform.scale = 1 ∧ s.gesture.pointers = []) →
     (handlePointerDown s id x y).1.transform = s.transform ∧
     (handlePointerDown s id x y).1.gesture.startX = s.gesture.startX ∧
     (handlePointerDown s id x y).1.gesture.startY = s.gesture.startY ∧
     (handlePointerDown s id x y).1.gesture.startDistance =
       s.gesture.startDistance ∧
     (handlePointerDown s id x y).1.gesture.startScale = s.gesture.startScale ∧
     (handlePointerDown s id x y).1.gesture.initialX = s.gesture.initialX ∧
     (handlePointerDown s id x y).1.gesture.initialY = s.gesture.initialY ∧
     (handlePointerDown s id x y).1.gesture.pointers =
       mapSet s.gesture.pointers id ⟨x, y⟩) := by
  constructor
  · intro htr hlen
    rcases hv : values (mapSet s.gesture.pointers id ⟨x, y⟩) with
      _ | ⟨p1, _ | ⟨p2, _ | ⟨p3, rest⟩⟩⟩
    · rw [hv] at hlen
      simp at hlen
    · rw [hv] at hlen
      simp at hlen
    · rw [hv] at hlen
      simp at hlen
    · by_cases hpass : s.isInteracting = false ∧ s.transform.scale = 1
      · simp [handlePointerMove, htr, hpass]
      · simp [handlePointerMove, htr, hpass, hv]
  · intro hlen hc
    rcases hv : values (mapSet s.gesture.pointers id ⟨x, y⟩) with
      _ | ⟨p1, _ | ⟨p2, _ | ⟨p3, rest⟩⟩⟩
    · rw [hv] at hlen
      simp at hlen
    · rw [hv] at hlen
      simp at hlen
    · rw [hv] at hlen
      simp at hlen
    · simp [handlePointerDown, hc, hv]

/-- Witness for C9 (amended) at a concrete three-pointer state. -/
theorem C9_amended_third_pointer_tracked_but_inert_witness :
    mapHas tTrace3.gesture.pointers 1 = true ∧
    3 ≤ (values (mapSet tTrace3.gesture.pointers 1 ⟨180, 100⟩)).length ∧
    ¬(tTrace3.transform.scale = 1 ∧ tTrace3.gesture.pointers = []) ∧
    (handlePointerMove tTrace3 1 180 100).1.transform = tTrace3.transform ∧
    (handlePointerDown tTrace3 1 180 100).1.gesture.startDistance =
      tTrace3.gesture.startDistance := by
  have htr : mapHas tTrace3.gesture.pointers 1 = true := by
    simp [tTrace3, mapHas]
  have hlen : 3 ≤ (values (mapSet tTrace3.gesture.pointers 1 ⟨180, 100⟩)).length := by
    simp [tTrace3, mapSet, values]
  have hc : ¬(tTrace3.transform.scale = 1 ∧ tTrace3.gesture.pointers = []) := by
    simp [tTrace3]
  have h := C9_amended_third_pointer_tracked_but_inert tTrace3 1 180 100
  exact ⟨htr, hlen, hc, (h.1 htr hlen).1, (h.2 hlen hc).2.2.2.1⟩

end PanZoom
